import Mathlib

/-!
# Verification of the durable-nonce offline-signing pipeline (src/app.ts)

A shallow embedding of `src/app.ts`.  The program's own functions
(`encodeAndWriteTransaction`, `readAndDecodeTransaction`,
`parseCommandLineArgs`, `createNonce`, `createTx`, `signOffline`,
`executeTx`, `main`) are translated directly from the source.  The external
collaborators (`@solana/web3.js` transactions, the `bs58` codec, the file
system, the RPC connection) are modelled per the contracts stated in the
specification (sections 3, 4.3 and 6):

* A `Transaction` is an ordered list of instructions, an optional fee payer,
  an optional validity reference (`recentBlockhash`), an optional
  `lastValidBlockHeight`, and a list of signature slots.
* `Transaction.serialize` compiles the message (fee payer first, then the
  instructions' required signer keys in order of first occurrence, without
  duplicates) and fails when `requireAllSignatures` is true while a required
  slot is empty, or when a filled slot holds an invalid signature.
* The wire form `SerializedTx` is the compiled message together with the
  signature slots.  The specification fixes a deterministic, injective byte
  layout, so equality of wire values is equality of the emitted bytes; the
  base58 collaborator is a reversible text encoding of the bytes with no
  semantic interpretation, so we identify an artifact's text with its wire
  value and model the file system as a map from paths to wire values.
* Ed25519 signing is deterministic; a signature is modelled as the pair of
  the signing public key and the signed message, and verification checks
  exactly that pair.
-/

/-- Public keys, in their base58 form (opaque identifiers here). -/
abbrev Pubkey := String

/-- Blockhashes / durable nonce values, in their base58 form. -/
abbrev Blockhash := String

/-- A signing identity.  Only the public half is observable in the model;
signing with a keypair is modelled by `Sig.mk` below. -/
structure Keypair where
  publicKey : Pubkey
deriving DecidableEq

/-- One account reference inside an instruction, as in web3.js
`AccountMeta`. -/
structure AccountMeta where
  pubkey : Pubkey
  isSigner : Bool
  isWritable : Bool
deriving DecidableEq

/-- The data payload of the system-program instructions this program uses,
standing for their deterministic byte encodings (system instruction
indices 0, 2, 4 and 6). -/
inductive InstrData where
  | createAccountData (lamports : Nat) (space : Nat) (owner : Pubkey)
  | transferData (lamports : Nat)
  | advanceNonceData
  | initNonceData (authorized : Pubkey)
deriving DecidableEq

/-- A transaction instruction: account references, owning program, data. -/
structure Instruction where
  keys : List AccountMeta
  programId : Pubkey
  data : InstrData
deriving DecidableEq

/-- The compiled wire message of a transaction: the ordered required-signer
list (fee payer first), the instruction list and the validity reference.
This abstracts the byte-level message of the spec's deterministic layout. -/
structure Message where
  requiredSigners : List Pubkey
  instructions : List Instruction
  recentBlockhash : Blockhash
deriving DecidableEq

/-- A detached ed25519 signature.  Deterministic signing is modelled by
recording the signer's public key and the signed message; verification
against a key `pk` and message `m` succeeds exactly for `⟨pk, m⟩`. -/
structure Sig where
  signer : Pubkey
  message : Message
deriving DecidableEq

/-- A signature slot: a required signer's key with its signature, `none`
while the slot is still empty (all-zero bytes on the wire). -/
structure SignaturePair where
  publicKey : Pubkey
  signature : Option Sig
deriving DecidableEq

/-- The in-memory transaction object of web3.js, restricted to the fields
this program reads or writes. -/
structure Transaction where
  instructions : List Instruction
  feePayer : Option Pubkey
  recentBlockhash : Option Blockhash
  lastValidBlockHeight : Option Nat
  signatures : List SignaturePair
deriving DecidableEq

/-- The serialized wire form of a transaction: signature slots followed by
the compiled message.  The spec's byte layout is deterministic and
injective, so equality of `SerializedTx` values is byte equality of the
emitted artifacts. -/
structure SerializedTx where
  signatures : List SignaturePair
  message : Message
deriving DecidableEq

/-- The system program id. -/
def systemProgramId : Pubkey := "11111111111111111111111111111111"

/-- The recent-blockhashes sysvar referenced by nonce instructions. -/
def sysvarRecentBlockhashes : Pubkey :=
  "SysvarRecentB1ockHashes11111111111111111111"

/-- The rent sysvar referenced by nonce initialization. -/
def sysvarRent : Pubkey := "SysvarRent111111111111111111111111111111111"

/-- Byte size of a durable nonce account record
(`web3.NONCE_ACCOUNT_LENGTH`). -/
def NONCE_ACCOUNT_LENGTH : Nat := 80

/-- Model of `SystemProgram.createAccount`: funder and the new account both sign. -/
def SystemProgram.createAccount (fromPubkey newAccountPubkey : Pubkey)
    (lamports space : Nat) (programId : Pubkey) : Instruction :=
  { keys := [⟨fromPubkey, true, true⟩, ⟨newAccountPubkey, true, true⟩],
    programId := systemProgramId,
    data := .createAccountData lamports space programId }

/-- Model of `SystemProgram.transfer`: the source account signs. -/
def SystemProgram.transfer (fromPubkey toPubkey : Pubkey) (lamports : Nat) :
    Instruction :=
  { keys := [⟨fromPubkey, true, true⟩, ⟨toPubkey, false, true⟩],
    programId := systemProgramId,
    data := .transferData lamports }

/-- Model of `SystemProgram.nonceAdvance`: only the nonce authority signs. -/
def SystemProgram.nonceAdvance (noncePubkey authorizedPubkey : Pubkey) :
    Instruction :=
  { keys := [⟨noncePubkey, false, true⟩,
             ⟨sysvarRecentBlockhashes, false, false⟩,
             ⟨authorizedPubkey, true, false⟩],
    programId := systemProgramId,
    data := .advanceNonceData }

/-- Model of `SystemProgram.nonceInitialize`: no signer among its keys; the authority
is carried in the data. -/
def SystemProgram.nonceInit (noncePubkey authorizedPubkey : Pubkey) :
    Instruction :=
  { keys := [⟨noncePubkey, false, true⟩,
             ⟨sysvarRecentBlockhashes, false, false⟩,
             ⟨sysvarRent, false, false⟩],
    programId := systemProgramId,
    data := .initNonceData authorizedPubkey }

/-- First-occurrence deduplication of a key list (web3.js deduplicates
account keys while keeping the first occurrence). -/
def dedupKeysAux (seen : List Pubkey) : List Pubkey → List Pubkey
  | [] => []
  | k :: rest =>
    if k ∈ seen then dedupKeysAux seen rest
    else k :: dedupKeysAux (k :: seen) rest

/-- The signer keys demanded by a transaction's instructions, in order of
first occurrence, without duplicates. -/
def Transaction.instructionSignerKeys (t : Transaction) : List Pubkey :=
  dedupKeysAux []
    (t.instructions.flatMap fun ix =>
      (ix.keys.filter (·.isSigner)).map (·.pubkey))

/-- web3.js `Transaction.compileMessage`: requires a validity reference and
a fee payer (falling back to the first signature slot's key); the required
signers are the fee payer followed by the instructions' signer keys with
the fee payer removed. -/
def Transaction.compileMessage (t : Transaction) :
    Except String Message :=
  match t.recentBlockhash with
  | none => .error "Transaction recentBlockhash required"
  | some bh =>
    let feePayerKey : Option Pubkey :=
      match t.feePayer with
      | some fp => some fp
      | none =>
        match t.signatures with
        | pr :: _ => some pr.publicKey
        | [] => none
    match feePayerKey with
    | none => .error "Transaction fee payer required"
    | some fp =>
      .ok { requiredSigners := fp :: (t.instructionSignerKeys.filter (· ≠ fp)),
            instructions := t.instructions,
            recentBlockhash := bh }

/-- web3.js `Transaction._compile` on the signature list: existing slots are
kept when they already name exactly the required signers, otherwise the
slots are reset to empty ones for the required signers. -/
def resetSignatures (sigs : List SignaturePair) (m : Message) :
    List SignaturePair :=
  if sigs.map (·.publicKey) = m.requiredSigners then sigs
  else m.requiredSigners.map fun pk => { publicKey := pk, signature := none }

/-- Verification of one signature slot (web3.js `Transaction._verifySignatures`):
an empty slot is acceptable only when not all signatures are required; a
filled slot must verify against its key and the signed message. -/
def verifySlot (m : Message) (requireAll : Bool) (pr : SignaturePair) : Bool :=
  match pr.signature with
  | none => !requireAll
  | some s => s.signer == pr.publicKey && s.message == m

/-- Verification of the whole slot list. -/
def verifySignaturesList (m : Message) (slots : List SignaturePair)
    (requireAll : Bool) : Bool :=
  slots.all (verifySlot m requireAll)

/-- web3.js `Transaction.serialize({requireAllSignatures})` (with its default
`verifySignatures = true`): compile the message, normalize the signature
slots, verify them, and emit the wire form. -/
def Transaction.serialize (t : Transaction) (requireAllSignatures : Bool) :
    Except String SerializedTx :=
  match t.compileMessage with
  | .error e => .error e
  | .ok m =>
    let slots := resetSignatures t.signatures m
    if verifySignaturesList m slots requireAllSignatures then
      .ok { signatures := slots, message := m }
    else
      .error "Signature verification failed"

/-- web3.js `Transaction.from` / `populate`: reconstruct the in-memory
transaction from the wire form (the fee payer is the first required signer;
`lastValidBlockHeight` is not part of the wire form). -/
def Transaction.fromWire (w : SerializedTx) : Transaction :=
  { instructions := w.message.instructions,
    feePayer := w.message.requiredSigners.head?,
    recentBlockhash := some w.message.recentBlockhash,
    lastValidBlockHeight := none,
    signatures := w.signatures }

/-- Replace the first slot belonging to `pk` (web3.js
`Transaction._addSignature`); `none` when no slot names `pk`. -/
def setSignature : List SignaturePair → Pubkey → Sig →
    Option (List SignaturePair)
  | [], _, _ => none
  | pr :: rest, pk, s =>
    if pr.publicKey = pk then
      some ({ publicKey := pr.publicKey, signature := some s } :: rest)
    else
      (setSignature rest pk s).map (pr :: ·)

/-- web3.js `Transaction._partialSign`: each signer deterministically signs
the compiled message and its signature is stored in its slot; a signer with
no slot is an unknown signer and raises. -/
def applySigners (m : Message) :
    List Keypair → List SignaturePair → Except String (List SignaturePair)
  | [], slots => .ok slots
  | kp :: rest, slots =>
    match setSignature slots kp.publicKey ⟨kp.publicKey, m⟩ with
    | none => .error ("unknown signer: " ++ kp.publicKey)
    | some slots2 => applySigners m rest slots2

/-- First-occurrence deduplication of signers by public key (web3.js
`Transaction.sign` deduplicates its arguments). -/
def dedupSignersAux (seen : List Pubkey) : List Keypair → List Keypair
  | [] => []
  | kp :: rest =>
    if kp.publicKey ∈ seen then dedupSignersAux seen rest
    else kp :: dedupSignersAux (kp.publicKey :: seen) rest

/-- web3.js `Transaction.sign(...signers)`: reset the slots to the
deduplicated signers, compile, normalize the slots to the required signers,
then apply every signer's signature. -/
def Transaction.sign (t : Transaction) (signers : List Keypair) :
    Except String Transaction :=
  match signers with
  | [] => .error "No signers"
  | _ :: _ =>
    let uniq := dedupSignersAux [] signers
    let t1 := { t with
      signatures := uniq.map fun (kp : Keypair) =>
        ({ publicKey := kp.publicKey, signature := none } : SignaturePair) }
    match t1.compileMessage with
    | .error e => .error e
    | .ok m =>
      let slots := resetSignatures t1.signatures m
      match applySigners m uniq slots with
      | .error e => .error e
      | .ok slots2 => .ok { t1 with signatures := slots2 }

/-- Durable storage: a map from file paths to artifact contents.  An
artifact's text encoding is identified with its wire value (the base58
collaborator is reversible and semantic-free). -/
def FS := String → Option SerializedTx

/-- Overwrite (or create) the file at `p`. -/
def FS.write (fs : FS) (p : String) (w : SerializedTx) : FS :=
  fun q => if q = p then some w else fs q

/-- src/app.ts `encodeAndWriteTransaction(tx, filename, requireAllSignatures
= true)`: serialize (which raises before any file I/O when it fails), then
write the encoded artifact and return it.  The source's default for
`requireAllSignatures` is `true`; callers here always pass it explicitly. -/
def encodeAndWriteTransaction (fs : FS) (tx : Transaction)
    (filename : String) (requireAllSignatures : Bool) :
    FS × Except String SerializedTx :=
  match tx.serialize requireAllSignatures with
  | .error e => (fs, .error e)
  | .ok w => (fs.write filename w, .ok w)

/-- src/app.ts `readAndDecodeTransaction(filename)`: read the artifact text,
decode it and rebuild the transaction. -/
def readAndDecodeTransaction (fs : FS) (filename : String) :
    Except String Transaction :=
  match fs filename with
  | none => .error ("ENOENT: no such file " ++ filename)
  | some w => .ok (Transaction.fromWire w)

/-- JavaScript `parseInt` with radix 10 behaviour on the inputs this
program can receive: skip leading whitespace, read an optional sign, then
the longest leading digit run; `none` models `NaN` (no digits found). -/
def jsParseInt (s : String) : Option Int :=
  let chars := s.toList.dropWhile fun c =>
    c = ' ' || c = '\t' || c = '\n' || c = '\r'
  let signed : Int × List Char :=
    match chars with
    | '-' :: rest => (-1, rest)
    | '+' :: rest => (1, rest)
    | rest => (1, rest)
  let digits := signed.2.takeWhile Char.isDigit
  if digits.isEmpty then none
  else
    some (signed.1 *
      Int.ofNat (digits.foldl (fun acc c => acc * 10 + (c.toNat - 48)) 0))

/-- The configuration produced by argument parsing.  `waitTime = none`
models the JavaScript `NaN` produced by `parseInt` on a non-numeric
value. -/
structure ParsedArgs where
  useNonce : Bool
  waitTime : Option Int
deriving DecidableEq

/-- The loop of src/app.ts `parseCommandLineArgs` over `process.argv`
starting at index 2, carrying the accumulated flags.  An `.error` is a
message printed to standard error followed by `process.exit(1)`. -/
def parseLoop : List String → Bool → Option Int → Except String ParsedArgs
  | [], useNonce, waitTime => .ok ⟨useNonce, waitTime⟩
  | a :: rest, useNonce, waitTime =>
    if a = "-useNonce" then parseLoop rest true waitTime
    else if a = "-waitTime" then
      match rest with
      | v :: rest2 => parseLoop rest2 useNonce (jsParseInt v)
      | [] => .error "Error: The -waitTime flag requires an argument"
    else .error ("Error: Unknown argument " ++ a)

/-- src/app.ts `parseCommandLineArgs()`: nonce mode off and a 120000 ms
delay by default; `argv` is `process.argv` without the two leading
interpreter/script entries. -/
def parseCommandLineArgs (argv : List String) : Except String ParsedArgs :=
  parseLoop argv false (some 120000)

/-- The module-level keypairs of src/app.ts: `senderKeypair` and
`nonceAuthKeypair` from environment secrets, `nonceKeypair` freshly
generated per run. -/
structure Ctx where
  senderKeypair : Keypair
  nonceAuthKeypair : Keypair
  nonceKeypair : Keypair

/-- On-ledger durable nonce account state as decoded by
`NonceAccount.fromAccountData`. -/
structure NonceAccountData where
  authorizedPubkey : Pubkey
  nonce : Blockhash
deriving DecidableEq

/-- The RPC collaborator (spec section 6), as the responses the connection
returns during one run: the nonce account's data (absent when the account
does not exist), the latest blockhash with its last valid block height, the
rent oracle, and the submission/confirmation outcomes. -/
structure RpcEnv where
  nonceAccountInfo : Option NonceAccountData
  latestBlockhash : Blockhash
  lastValidBlockHeight : Nat
  minimumBalanceForRentExemption : Nat → Nat
  sendRawTransaction : SerializedTx → Except String String
  confirmTransaction : String → Blockhash → Nat → Except String Unit

/-- src/app.ts `fetchNonceInfo()`: `getAccountInfo` on the nonce keypair's
public key, raising when no account info is found. -/
def fetchNonceInfo (env : RpcEnv) : Except String NonceAccountData :=
  match env.nonceAccountInfo with
  | none => .error "No account info found"
  | some nonceAccount => .ok nonceAccount

/-- The constant `TRANSFER_AMOUNT = web3.LAMPORTS_PER_SOL * 0.01` (0.01 SOL in
lamports). -/
def TRANSFER_AMOUNT : Nat := 10000000

/-- The unsigned-artifact path of src/app.ts. -/
def unsignedTxPath : String := "./unsigned.json"

/-- The signed-artifact path of src/app.ts. -/
def signedTxPath : String := "./signed.json"

/-- What one run of src/app.ts `createNonce()` produces on success: the
signed provisioning transaction, its wire form, the ledger-assigned
signature id and the arguments of the blocking confirmation call. -/
structure NonceCreation where
  tx : Transaction
  wire : SerializedTx
  sentSignature : String
  confirmedSignature : String
  confirmedBlockhash : Blockhash
  confirmedLastValidBlockHeight : Nat
deriving DecidableEq

/-- src/app.ts `createNonce()`: rent for `NONCE_ACCOUNT_LENGTH` bytes, the
latest blockhash, a two-instruction transaction (create the nonce account,
then initialize it to the nonce authority) with the nonce authority as fee
payer, signed by the nonce-account and nonce-authority keypairs, then
submitted and confirmed; any send/confirm error is logged and rethrown. -/
def createNonce (ctx : Ctx) (env : RpcEnv) : Except String NonceCreation :=
  let rent := env.minimumBalanceForRentExemption NONCE_ACCOUNT_LENGTH
  let bh := env.latestBlockhash
  let lvbh := env.lastValidBlockHeight
  let newNonceTx : Transaction :=
    { instructions :=
        [SystemProgram.createAccount ctx.nonceAuthKeypair.publicKey
          ctx.nonceKeypair.publicKey rent NONCE_ACCOUNT_LENGTH systemProgramId,
         SystemProgram.nonceInit ctx.nonceKeypair.publicKey
          ctx.nonceAuthKeypair.publicKey],
      feePayer := some ctx.nonceAuthKeypair.publicKey,
      recentBlockhash := some bh,
      lastValidBlockHeight := some lvbh,
      signatures := [] }
  match newNonceTx.sign [ctx.nonceKeypair, ctx.nonceAuthKeypair] with
  | .error e => .error e
  | .ok signedTx =>
    match signedTx.serialize true with
    | .error e => .error e
    | .ok wire =>
      match env.sendRawTransaction wire with
      | .error e => .error e
      | .ok signature =>
        match env.confirmTransaction signature bh lvbh with
        | .error e => .error e
        | .ok _ =>
          .ok { tx := signedTx, wire := wire, sentSignature := signature,
                confirmedSignature := signature, confirmedBlockhash := bh,
                confirmedLastValidBlockHeight := lvbh }

/-- src/app.ts `createTx(useNonce = false)`: build the transfer instruction
to a freshly generated destination and the nonce-advance instruction; in
nonce mode add [advance, transfer] and use the nonce value read back from
the nonce account as validity reference, otherwise add [transfer] and use
the freshly fetched latest blockhash; set the sender as fee payer and write
the unsigned artifact with `requireAllSignatures = false`.  The built
in-memory transaction is returned alongside the serialized text for
specification purposes. -/
def createTx (fs : FS) (ctx : Ctx) (env : RpcEnv) (destination : Keypair)
    (useNonce : Bool) : FS × Except String (Transaction × SerializedTx) :=
  let transferIx := SystemProgram.transfer ctx.senderKeypair.publicKey
    destination.publicKey TRANSFER_AMOUNT
  let advanceIx := SystemProgram.nonceAdvance ctx.nonceKeypair.publicKey
    ctx.nonceAuthKeypair.publicKey
  let staged : Except String Transaction :=
    if useNonce then
      match fetchNonceInfo env with
      | .error e => .error e
      | .ok nonceAccount =>
        .ok { instructions := [advanceIx, transferIx],
              feePayer := none,
              recentBlockhash := some nonceAccount.nonce,
              lastValidBlockHeight := none,
              signatures := [] }
    else
      .ok { instructions := [transferIx],
            feePayer := none,
            recentBlockhash := some env.latestBlockhash,
            lastValidBlockHeight := none,
            signatures := [] }
  match staged with
  | .error e => (fs, .error e)
  | .ok tx0 =>
    let sampleTx := { tx0 with feePayer := some ctx.senderKeypair.publicKey }
    match encodeAndWriteTransaction fs sampleTx unsignedTxPath false with
    | (fs1, .error e) => (fs1, .error e)
    | (fs1, .ok w) => (fs1, .ok (sampleTx, w))

/-- src/app.ts `signOffline(waitTime = 120000, useNonce = false)`: wait
`waitTime` milliseconds (the wait does not influence the result), reload
the unsigned artifact, sign with the nonce authority and the sender in
nonce mode or with the sender alone otherwise, and write the signed
artifact with the source's default `requireAllSignatures = true`. -/
def signOffline (fs : FS) (ctx : Ctx) (waitTime : Option Int)
    (useNonce : Bool) : FS × Except String SerializedTx :=
  match readAndDecodeTransaction fs unsignedTxPath with
  | .error e => (fs, .error e)
  | .ok unsignedTx =>
    let signedTx :=
      if useNonce then
        unsignedTx.sign [ctx.nonceAuthKeypair, ctx.senderKeypair]
      else
        unsignedTx.sign [ctx.senderKeypair]
    match signedTx with
    | .error e => (fs, .error e)
    | .ok tx => encodeAndWriteTransaction fs tx signedTxPath true

/-- What one run of src/app.ts `executeTx()` yields on success.
`returnValue` is the value of the resolved promise: the source logs the
ledger-assigned signature id but has no return statement, so the promise
resolves with `undefined`, modelled as `none`. -/
structure Execution where
  sentWire : SerializedTx
  loggedSignature : String
  returnValue : Option String
deriving DecidableEq

/-- src/app.ts `executeTx()`: reload the signed artifact, serialize it to
wire bytes (web3.js default `requireAllSignatures = true`), submit it via
`sendRawTransaction` and log the resulting signature id. -/
def executeTx (fs : FS) (env : RpcEnv) : Except String Execution :=
  match readAndDecodeTransaction fs signedTxPath with
  | .error e => .error e
  | .ok signedTx =>
    match signedTx.serialize true with
    | .error e => .error e
    | .ok wire =>
      match env.sendRawTransaction wire with
      | .error e => .error e
      | .ok sig =>
        .ok { sentWire := wire, loggedSignature := sig, returnValue := none }

/-- The observable outcome of one run of src/app.ts `main()`:
`parseError` is a message printed to standard error by argument parsing
followed by `process.exit(1)`; `caughtError` is the single `console.error`
of the try/catch around the pipeline; the `ran*` flags record which stages
were entered; `exitCode` is the process exit status. -/
structure MainResult where
  parseError : Option String
  caughtError : Option String
  ranCreateNonce : Bool
  ranCreateTx : Bool
  ranSignOffline : Bool
  ranExecuteTx : Bool
  exitCode : Nat
  fs : FS

/-- src/app.ts `main()`: parse the arguments (exiting with status 1 on a
parse error before any stage), then run createNonce, createTx, signOffline
and executeTx in order inside one try/catch whose handler logs the error;
a caught error stops the pipeline but the process then ends normally with
exit status 0. -/
def mainModel (ctx : Ctx) (env : RpcEnv) (destination : Keypair)
    (argv : List String) (fs0 : FS) : MainResult :=
  match parseCommandLineArgs argv with
  | .error msg =>
    { parseError := some msg, caughtError := none, ranCreateNonce := false,
      ranCreateTx := false, ranSignOffline := false, ranExecuteTx := false,
      exitCode := 1, fs := fs0 }
  | .ok args =>
    match createNonce ctx env with
    | .error e =>
      { parseError := none, caughtError := some e, ranCreateNonce := true,
        ranCreateTx := false, ranSignOffline := false, ranExecuteTx := false,
        exitCode := 0, fs := fs0 }
    | .ok _ =>
      match createTx fs0 ctx env destination args.useNonce with
      | (fs1, .error e) =>
        { parseError := none, caughtError := some e, ranCreateNonce := true,
          ranCreateTx := true, ranSignOffline := false, ranExecuteTx := false,
          exitCode := 0, fs := fs1 }
      | (fs1, .ok _) =>
        match signOffline fs1 ctx args.waitTime args.useNonce with
        | (fs2, .error e) =>
          { parseError := none, caughtError := some e, ranCreateNonce := true,
            ranCreateTx := true, ranSignOffline := true, ranExecuteTx := false,
            exitCode := 0, fs := fs2 }
        | (fs2, .ok _) =>
          match executeTx fs2 env with
          | .error e =>
            { parseError := none, caughtError := some e, ranCreateNonce := true,
              ranCreateTx := true, ranSignOffline := true, ranExecuteTx := true,
              exitCode := 0, fs := fs2 }
          | .ok _ =>
            { parseError := none, caughtError := none, ranCreateNonce := true,
              ranCreateTx := true, ranSignOffline := true, ranExecuteTx := true,
              exitCode := 0, fs := fs2 }

/-- A transaction's slots name exactly its compiled required signers (true
of every transaction that has been through web3.js compilation, signing or
serialization). -/
def Transaction.slotsCompiled (t : Transaction) : Bool :=
  match t.compileMessage with
  | .ok m => t.signatures.map (·.publicKey) == m.requiredSigners
  | .error _ => false

/-- Every filled slot of the transaction verifies against its key and the
compiled message. -/
def Transaction.filledSlotsValid (t : Transaction) : Bool :=
  match t.compileMessage with
  | .ok m =>
    t.signatures.all fun pr =>
      match pr.signature with
      | none => true
      | some s => s.signer == pr.publicKey && s.message == m
  | .error _ => false

/-- Some required signer slot of the transaction is still empty. -/
def Transaction.hasEmptySlot (t : Transaction) : Bool :=
  t.signatures.any (·.signature.isNone)

lemma verifySignaturesList_map_none (m : Message) (l : List Pubkey) :
    verifySignaturesList m
      (l.map fun pk => ({ publicKey := pk, signature := none } : SignaturePair))
      false = true := by
  simp [verifySignaturesList, List.all_map, verifySlot, Function.comp]

lemma serialize_unsigned (tx : Transaction) (fp : Pubkey) (bh : Blockhash)
    (hfp : tx.feePayer = some fp) (hbh : tx.recentBlockhash = some bh)
    (hsigs : tx.signatures = []) :
    tx.serialize false =
      .ok { signatures := (fp :: tx.instructionSignerKeys.filter (· ≠ fp)).map
              fun pk => { publicKey := pk, signature := none },
            message := { requiredSigners := fp :: tx.instructionSignerKeys.filter (· ≠ fp),
                         instructions := tx.instructions,
                         recentBlockhash := bh } } := by
  simp [Transaction.serialize, Transaction.compileMessage, hbh, hfp,
    resetSignatures, hsigs, verifySignaturesList_map_none,
    verifySignaturesList, verifySlot, List.all_map, Function.comp]
  rintro x k - - rfl
  rfl

/-- Shared concrete fixtures for the witnesses. -/
def kpSender : Keypair := ⟨"SenderPk"⟩

def kpAuth : Keypair := ⟨"AuthPk"⟩

def kpNonce : Keypair := ⟨"NoncePk"⟩

def kpDest : Keypair := ⟨"DestPk"⟩

def ctx0 : Ctx := ⟨kpSender, kpAuth, kpNonce⟩

def fsEmpty : FS := fun _ => none

def env0 : RpcEnv :=
  { nonceAccountInfo := some ⟨"AuthPk", "NonceVal1"⟩,
    latestBlockhash := "Bh1",
    lastValidBlockHeight := 100,
    minimumBalanceForRentExemption := fun size => 20 * size,
    sendRawTransaction := fun _ => .ok "Sig1",
    confirmTransaction := fun _ _ _ => .ok () }

def envSendFail : RpcEnv :=
  { env0 with sendRawTransaction := fun _ => .error "Failed to send" }

/-- C10: for every command line in which the -waitTime flag is followed by
any value, argument parsing accepts that value without validating it as an
integer: the parser always consumes the following token and stores
`parseInt` of it, a non-numeric value yields NaN (modelled `none`) rather
than an error, a value with trailing garbage yields its leading-digit
prefix, and the following argument is consumed as the value even when it is
itself a flag, with no error reported and the run proceeding. -/
theorem parseArgs_waitTime_unvalidated :
    (∀ (v : String) (rest : List String) (u : Bool) (w : Option Int),
      parseLoop ("-waitTime" :: v :: rest) u w = parseLoop rest u (jsParseInt v)) ∧
    jsParseInt "abc" = none ∧
    jsParseInt "100abc" = some 100 ∧
    parseCommandLineArgs ["-waitTime", "-useNonce"] =
      .ok { useNonce := false, waitTime := none } := by
  refine ⟨fun v rest u w => rfl, rfl, rfl, rfl⟩

/-- C9: with no flags, argument parsing returns nonce mode off and a
120000 ms signing delay; whenever the parser reaches an unknown flag, or
the delay flag as the last argument with no value following it, an error is
reported to standard error and the process exits with a non-zero status
before any pipeline stage executes. -/
theorem parseArgs_defaults_and_errors :
    parseCommandLineArgs [] = .ok { useNonce := false, waitTime := some 120000 } ∧
    (∀ (x : String) (rest : List String) (u : Bool) (w : Option Int),
      x ≠ "-useNonce" → x ≠ "-waitTime" →
      parseLoop (x :: rest) u w = .error ("Error: Unknown argument " ++ x)) ∧
    (∀ (u : Bool) (w : Option Int),
      parseLoop ["-waitTime"] u w =
        .error "Error: The -waitTime flag requires an argument") ∧
    (∀ (ctx : Ctx) (env : RpcEnv) (dest : Keypair) (fs : FS)
      (argv : List String) (msg : String),
      parseCommandLineArgs argv = .error msg →
      mainModel ctx env dest argv fs =
        { parseError := some msg, caughtError := none, ranCreateNonce := false,
          ranCreateTx := false, ranSignOffline := false, ranExecuteTx := false,
          exitCode := 1, fs := fs }) := by
  refine ⟨rfl, ?_, fun u w => rfl, ?_⟩
  · intro x rest u w h1 h2
    rw [parseLoop.eq_def]
    simp [h1, h2]
  · intro ctx env dest fs argv msg h
    simp [mainModel, h]

/-- Witness for C9 at the concrete command line `["-foo"]`. -/
theorem parseArgs_defaults_and_errors_witness :
    parseLoop ["-foo"] false (some 120000) =
      .error ("Error: Unknown argument " ++ "-foo") ∧
    mainModel ctx0 env0 kpDest ["-foo"] fsEmpty =
      { parseError := some ("Error: Unknown argument " ++ "-foo"),
        caughtError := none, ranCreateNonce := false, ranCreateTx := false,
        ranSignOffline := false, ranExecuteTx := false,
        exitCode := 1, fs := fsEmpty } := by
  refine ⟨parseArgs_defaults_and_errors.2.1 "-foo" [] false (some 120000)
      (by decide) (by decide), ?_⟩
  exact parseArgs_defaults_and_errors.2.2.2 ctx0 env0 kpDest fsEmpty ["-foo"]
    ("Error: Unknown argument " ++ "-foo")
    (parseArgs_defaults_and_errors.2.1 "-foo" [] false (some 120000)
      (by decide) (by decide))

/-- C5 counterexample: a run in which the nonce-provisioning stage raises an
error (the RPC send fails).  The error is caught and logged and the later
stages do not run, but the process terminates with exit status 0, not with
a non-zero exit status as the claim states. -/
theorem main_stage_error_zero_exit_cex :
    (mainModel ctx0 envSendFail kpDest [] fsEmpty).caughtError =
      some "Failed to send" ∧
    (mainModel ctx0 envSendFail kpDest [] fsEmpty).ranCreateTx = false ∧
    (mainModel ctx0 envSendFail kpDest [] fsEmpty).exitCode = 0 ∧
    (0 : Nat) ≠ 1 := by
  refine ⟨rfl, rfl, rfl, by decide⟩

/-- C5 amended: for every run in which a pipeline stage raises an error,
the run aborts immediately at that stage (no later stage runs), the error
is reported through the single top-level catch with its originating cause,
and the process then terminates normally with exit status zero (the
pipeline's try/catch logs the error but does not set a non-zero exit
status). -/
theorem main_error_propagation_amended (ctx : Ctx) (env : RpcEnv)
    (dest : Keypair) (argv : List String) (fs : FS) (args : ParsedArgs)
    (hargs : parseCommandLineArgs argv = .ok args) :
    (mainModel ctx env dest argv fs).exitCode = 0 ∧
    (∀ e, createNonce ctx env = .error e →
      mainModel ctx env dest argv fs =
        { parseError := none, caughtError := some e, ranCreateNonce := true,
          ranCreateTx := false, ranSignOffline := false, ranExecuteTx := false,
          exitCode := 0, fs := fs }) ∧
    (∀ nc fs1 e, createNonce ctx env = .ok nc →
      createTx fs ctx env dest args.useNonce = (fs1, .error e) →
      mainModel ctx env dest argv fs =
        { parseError := none, caughtError := some e, ranCreateNonce := true,
          ranCreateTx := true, ranSignOffline := false, ranExecuteTx := false,
          exitCode := 0, fs := fs1 }) ∧
    (∀ nc fs1 p fs2 e, createNonce ctx env = .ok nc →
      createTx fs ctx env dest args.useNonce = (fs1, .ok p) →
      signOffline fs1 ctx args.waitTime args.useNonce = (fs2, .error e) →
      mainModel ctx env dest argv fs =
        { parseError := none, caughtError := some e, ranCreateNonce := true,
          ranCreateTx := true, ranSignOffline := true, ranExecuteTx := false,
          exitCode := 0, fs := fs2 }) ∧
    (∀ nc fs1 p fs2 q e, createNonce ctx env = .ok nc →
      createTx fs ctx env dest args.useNonce = (fs1, .ok p) →
      signOffline fs1 ctx args.waitTime args.useNonce = (fs2, .ok q) →
      executeTx fs2 env = .error e →
      mainModel ctx env dest argv fs =
        { parseError := none, caughtError := some e, ranCreateNonce := true,
          ranCreateTx := true, ranSignOffline := true, ranExecuteTx := true,
          exitCode := 0, fs := fs2 }) := by
  refine ⟨?_, ?_, ?_, ?_, ?_⟩
  · cases h1 : createNonce ctx env with
    | error e => simp [mainModel, hargs, h1]
    | ok nc =>
      cases h2 : createTx fs ctx env dest args.useNonce with
      | mk fs1 r2 =>
        cases r2 with
        | error e => simp [mainModel, hargs, h1, h2]
        | ok p =>
          cases h3 : signOffline fs1 ctx args.waitTime args.useNonce with
          | mk fs2 r3 =>
            cases r3 with
            | error e => simp [mainModel, hargs, h1, h2, h3]
            | ok q =>
              cases h4 : executeTx fs2 env with
              | error e => simp [mainModel, hargs, h1, h2, h3, h4]
              | ok _ => simp [mainModel, hargs, h1, h2, h3, h4]
  · intro e h1
    simp [mainModel, hargs, h1]
  · intro nc fs1 e h1 h2
    simp [mainModel, hargs, h1, h2]
  · intro nc fs1 p fs2 e h1 h2 h3
    simp [mainModel, hargs, h1, h2, h3]
  · intro nc fs1 p fs2 q e h1 h2 h3 h4
    simp [mainModel, hargs, h1, h2, h3, h4]

/-- Witness for the amended C5 at a concrete run whose provisioning stage
fails. -/
theorem main_error_propagation_amended_witness :
    (mainModel ctx0 envSendFail kpDest [] fsEmpty).exitCode = 0 ∧
    mainModel ctx0 envSendFail kpDest [] fsEmpty =
      { parseError := none, caughtError := some "Failed to send",
        ranCreateNonce := true, ranCreateTx := false, ranSignOffline := false,
        ranExecuteTx := false, exitCode := 0, fs := fsEmpty } :=
  ⟨(main_error_propagation_amended ctx0 envSendFail kpDest [] fsEmpty
      { useNonce := false, waitTime := some 120000 } rfl).1,
   (main_error_propagation_amended ctx0 envSendFail kpDest [] fsEmpty
      { useNonce := false, waitTime := some 120000 } rfl).2.1
     "Failed to send" rfl⟩

/-- The wire message of the concrete signed artifact used by the C8
fixtures. -/
def msg0 : Message :=
  { requiredSigners := ["SenderPk"],
    instructions := [SystemProgram.transfer "SenderPk" "DestPk" TRANSFER_AMOUNT],
    recentBlockhash := "Bh1" }

/-- A concrete fully signed artifact. -/
def wire0 : SerializedTx :=
  { signatures := [{ publicKey := "SenderPk", signature := some ⟨"SenderPk", msg0⟩ }],
    message := msg0 }

/-- A file system holding the signed artifact at the signed-artifact path. -/
def fsSigned : FS := FS.write fsEmpty signedTxPath wire0

/-- C8 counterexample: a concrete successful broadcast.  The broadcaster
reloads the signed artifact, serializes it, submits it, and the ledger
accepts it under the identifier "Sig1", which is logged — but the function
resolves with `undefined` (modelled `none`): the ledger-assigned identifier
is not returned to the caller, contrary to the claim. -/
theorem executeTx_no_return_cex :
    executeTx fsSigned env0 =
      .ok { sentWire := wire0, loggedSignature := "Sig1", returnValue := none } ∧
    (none : Option String) ≠ some "Sig1" := by
  exact ⟨rfl, by decide⟩

/-- C8 amended: for every successful broadcast, the broadcaster stage
reloads the signed artifact from the signed-artifact path, serializes it to
wire bytes, submits it to the ledger, and on acceptance logs the
ledger-assigned transaction identifier to the console, resolving with
`undefined` rather than returning the identifier to its caller. -/
theorem executeTx_contract_amended (fs : FS) (env : RpcEnv)
    (w w2 : SerializedTx) (sig : String)
    (hfile : fs signedTxPath = some w)
    (hser : (Transaction.fromWire w).serialize true = .ok w2)
    (hsend : env.sendRawTransaction w2 = .ok sig) :
    executeTx fs env =
      .ok { sentWire := w2, loggedSignature := sig, returnValue := none } := by
  simp [executeTx, readAndDecodeTransaction, hfile, hser, hsend]

/-- Witness for the amended C8 at the concrete fixtures. -/
theorem executeTx_contract_amended_witness :
    fsSigned signedTxPath = some wire0 ∧
    executeTx fsSigned env0 =
      .ok { sentWire := wire0, loggedSignature := "Sig1", returnValue := none } :=
  ⟨rfl, executeTx_contract_amended fsSigned env0 wire0 wire0 "Sig1" rfl rfl rfl⟩

lemma compileMessage_ok_of_feePayer (t : Transaction) (fp : Pubkey)
    (bh : Blockhash) (hfp : t.feePayer = some fp)
    (hbh : t.recentBlockhash = some bh) :
    t.compileMessage =
      .ok { requiredSigners := fp :: t.instructionSignerKeys.filter (· ≠ fp),
            instructions := t.instructions,
            recentBlockhash := bh } := by
  simp [Transaction.compileMessage, hfp, hbh]

/-- C1: for every well-formed transaction T (its slots are the compiled
required-signer slots and every filled slot verifies) and path p, the codec
write with `requireAllSignatures = true` fails whenever any required signer
slot of T is empty, and in that failure case the file system is completely
untouched (no file created at p, any prior file at p intact); when all
required slots are filled the write succeeds and its output bytes are the
same across repeated writes against any file-system state. -/
theorem encodeAndWrite_requireAll_fail_closed (tx : Transaction) (p : String)
    (fs : FS) (hslots : tx.slotsCompiled = true)
    (hvalid : tx.filledSlotsValid = true) :
    (tx.hasEmptySlot = true →
      (encodeAndWriteTransaction fs tx p true).1 = fs ∧
      (encodeAndWriteTransaction fs tx p true).2 =
        .error "Signature verification failed") ∧
    (tx.hasEmptySlot = false →
      ∃ w, encodeAndWriteTransaction fs tx p true = (fs.write p w, .ok w) ∧
        fs.write p w p = some w ∧
        ∀ fs2 : FS,
          encodeAndWriteTransaction fs2 tx p true = (fs2.write p w, .ok w)) := by
  cases hm : tx.compileMessage with
  | error e => rw [Transaction.slotsCompiled, hm] at hslots; cases hslots
  | ok m =>
    have hsl : tx.signatures.map (·.publicKey) = m.requiredSigners := by
      have := hslots
      rw [Transaction.slotsCompiled, hm] at this
      simpa using this
    have hv : ∀ pr ∈ tx.signatures, ∀ s, pr.signature = some s →
        s.signer = pr.publicKey ∧ s.message = m := by
      intro pr hpr s hs
      rw [Transaction.filledSlotsValid, hm, List.all_eq_true] at hvalid
      have := hvalid pr hpr
      rw [hs] at this
      simpa using this
    constructor
    · intro hempty
      rw [Transaction.hasEmptySlot, List.any_eq_true] at hempty
      obtain ⟨pr, hpr, hnone⟩ := hempty
      rw [Option.isNone_iff_eq_none] at hnone
      have hver : verifySignaturesList m tx.signatures true = false := by
        cases hb : verifySignaturesList m tx.signatures true with
        | false => rfl
        | true =>
          exfalso
          rw [verifySignaturesList, List.all_eq_true] at hb
          have := hb pr hpr
          simp [verifySlot, hnone] at this
      have hser : tx.serialize true = .error "Signature verification failed" := by
        simp [Transaction.serialize, hm, resetSignatures, hsl, hver]
      exact ⟨by simp [encodeAndWriteTransaction, hser],
             by simp [encodeAndWriteTransaction, hser]⟩
    · intro hfull
      have hver : verifySignaturesList m tx.signatures true = true := by
        rw [verifySignaturesList, List.all_eq_true]
        intro pr hpr
        cases hs : pr.signature with
        | none =>
          exfalso
          have : tx.hasEmptySlot = true := by
            rw [Transaction.hasEmptySlot, List.any_eq_true]
            exact ⟨pr, hpr, by simp [hs]⟩
          rw [this] at hfull
          cases hfull
        | some s =>
          obtain ⟨h1, h2⟩ := hv pr hpr s hs
          simp [verifySlot, hs, h1, h2]
      have hser : tx.serialize true = .ok ⟨tx.signatures, m⟩ := by
        simp [Transaction.serialize, hm, resetSignatures, hsl, hver]
      refine ⟨⟨tx.signatures, m⟩, by simp [encodeAndWriteTransaction, hser],
        by simp [FS.write], fun fs2 => by simp [encodeAndWriteTransaction, hser]⟩

/-- The concrete unsigned transaction used by the C1 witness: a single
transfer whose sole required signer slot (the sender, also fee payer) is
empty. -/
def txUnsigned0 : Transaction :=
  { instructions := [SystemProgram.transfer "SenderPk" "DestPk" TRANSFER_AMOUNT],
    feePayer := some "SenderPk",
    recentBlockhash := some "Bh1",
    lastValidBlockHeight := none,
    signatures := [{ publicKey := "SenderPk", signature := none }] }

/-- Witness for C1 at the concrete unsigned transaction. -/
theorem encodeAndWrite_requireAll_fail_closed_witness :
    (txUnsigned0.slotsCompiled = true ∧ txUnsigned0.filledSlotsValid = true) ∧
    ((txUnsigned0.hasEmptySlot = true →
      (encodeAndWriteTransaction fsEmpty txUnsigned0 "p" true).1 = fsEmpty ∧
      (encodeAndWriteTransaction fsEmpty txUnsigned0 "p" true).2 =
        .error "Signature verification failed") ∧
    (txUnsigned0.hasEmptySlot = false →
      ∃ w, encodeAndWriteTransaction fsEmpty txUnsigned0 "p" true =
          (fsEmpty.write "p" w, .ok w) ∧
        fsEmpty.write "p" w "p" = some w ∧
        ∀ fs2 : FS,
          encodeAndWriteTransaction fs2 txUnsigned0 "p" true =
            (fs2.write "p" w, .ok w))) :=
  ⟨⟨by decide, by decide⟩,
   encodeAndWrite_requireAll_fail_closed txUnsigned0 "p" fsEmpty
     (by decide) (by decide)⟩

/-- C2: for every well-formed constructed transaction T (fee payer set,
slots the compiled required-signer slots, filled slots valid) and path p,
reading back what was written with `requireAllSignatures = false` yields a
transaction structurally equal to T: same instruction list, same fee payer,
same validity reference, and the same signature slots including empty
ones. -/
theorem write_read_roundtrip (tx : Transaction) (p : String) (fs : FS)
    (hfp : tx.feePayer.isSome = true) (hslots : tx.slotsCompiled = true)
    (hvalid : tx.filledSlotsValid = true) :
    ∃ w, encodeAndWriteTransaction fs tx p false = (fs.write p w, .ok w) ∧
      ∃ tx2, readAndDecodeTransaction (fs.write p w) p = .ok tx2 ∧
        tx2.instructions = tx.instructions ∧
        tx2.feePayer = tx.feePayer ∧
        tx2.recentBlockhash = tx.recentBlockhash ∧
        tx2.signatures = tx.signatures := by
  cases hm : tx.compileMessage with
  | error e => rw [Transaction.slotsCompiled, hm] at hslots; cases hslots
  | ok m =>
    obtain ⟨fp, hfp2⟩ := Option.isSome_iff_exists.mp hfp
    cases hbh : tx.recentBlockhash with
    | none => simp [Transaction.compileMessage, hbh] at hm
    | some bh =>
      have hmeq : m =
          { requiredSigners := fp :: tx.instructionSignerKeys.filter (· ≠ fp),
            instructions := tx.instructions, recentBlockhash := bh } := by
        have h2 := compileMessage_ok_of_feePayer tx fp bh hfp2 hbh
        rw [hm] at h2
        exact Except.ok.inj h2
      have hsl : tx.signatures.map (·.publicKey) = m.requiredSigners := by
        have := hslots
        rw [Transaction.slotsCompiled, hm] at this
        simpa using this
      have hv : ∀ pr ∈ tx.signatures, ∀ s, pr.signature = some s →
          s.signer = pr.publicKey ∧ s.message = m := by
        intro pr hpr s hs
        rw [Transaction.filledSlotsValid, hm, List.all_eq_true] at hvalid
        have := hvalid pr hpr
        rw [hs] at this
        simpa using this
      have hver : verifySignaturesList m tx.signatures false = true := by
        rw [verifySignaturesList, List.all_eq_true]
        intro pr hpr
        cases hs : pr.signature with
        | none => simp [verifySlot, hs]
        | some s =>
          obtain ⟨h1, h2⟩ := hv pr hpr s hs
          simp [verifySlot, hs, h1, h2]
      have hser : tx.serialize false = .ok ⟨tx.signatures, m⟩ := by
        simp [Transaction.serialize, hm, resetSignatures, hsl, hver]
      refine ⟨⟨tx.signatures, m⟩, by simp [encodeAndWriteTransaction, hser],
        Transaction.fromWire ⟨tx.signatures, m⟩,
        by simp [readAndDecodeTransaction, FS.write], ?_, ?_, ?_, rfl⟩
      · rw [Transaction.fromWire, hmeq]
      · simp [Transaction.fromWire, hmeq, hfp2]
      · simp [Transaction.fromWire, hmeq, hbh]

/-- Witness for C2 at the concrete unsigned transaction (its only slot is
empty and survives the round trip). -/
theorem write_read_roundtrip_witness :
    (txUnsigned0.feePayer.isSome = true ∧ txUnsigned0.slotsCompiled = true ∧
      txUnsigned0.filledSlotsValid = true) ∧
    (∃ w, encodeAndWriteTransaction fsEmpty txUnsigned0 "q" false =
        (fsEmpty.write "q" w, .ok w) ∧
      ∃ tx2, readAndDecodeTransaction (fsEmpty.write "q" w) "q" = .ok tx2 ∧
        tx2.instructions = txUnsigned0.instructions ∧
        tx2.feePayer = txUnsigned0.feePayer ∧
        tx2.recentBlockhash = txUnsigned0.recentBlockhash ∧
        tx2.signatures = txUnsigned0.signatures) :=
  ⟨⟨by decide, by decide, by decide⟩,
   write_read_roundtrip txUnsigned0 "q" fsEmpty (by decide) (by decide)
     (by decide)⟩

/-- The transaction built by `createTx` in blockhash mode, fully explicit:
only the transfer, the latest blockhash as validity reference, the sender
as fee payer and sole required signer. -/
lemma createTx_false_eq (fs : FS) (ctx : Ctx) (env : RpcEnv) (dest : Keypair) :
    createTx fs ctx env dest false =
      (fs.write unsignedTxPath
        { signatures := [{ publicKey := ctx.senderKeypair.publicKey, signature := none }],
          message := { requiredSigners := [ctx.senderKeypair.publicKey],
                       instructions := [SystemProgram.transfer
                         ctx.senderKeypair.publicKey dest.publicKey TRANSFER_AMOUNT],
                       recentBlockhash := env.latestBlockhash } },
       .ok ({ instructions := [SystemProgram.transfer ctx.senderKeypair.publicKey
                dest.publicKey TRANSFER_AMOUNT],
              feePayer := some ctx.senderKeypair.publicKey,
              recentBlockhash := some env.latestBlockhash,
              lastValidBlockHeight := none,
              signatures := [] },
            { signatures := [{ publicKey := ctx.senderKeypair.publicKey, signature := none }],
              message := { requiredSigners := [ctx.senderKeypair.publicKey],
                           instructions := [SystemProgram.transfer
                             ctx.senderKeypair.publicKey dest.publicKey TRANSFER_AMOUNT],
                           recentBlockhash := env.latestBlockhash } })) := by
  simp [createTx, encodeAndWriteTransaction, Transaction.serialize,
    Transaction.compileMessage, Transaction.instructionSignerKeys,
    SystemProgram.transfer, dedupKeysAux, resetSignatures,
    verifySignaturesList, verifySlot]

/-- C3: in nonce mode the built transaction has the nonce-advance
instruction at index 0 followed by the transfer and its validity reference
is the nonce value read from the nonce account at build time; in blockhash
mode it contains only the transfer (never a nonce-advance instruction) with
the freshly fetched latest blockhash as validity reference; in both modes
the fee payer is the sender's public key, and the unsigned artifact is
written with the partial-signature codec mode. -/
theorem createTx_mode_structure (fs : FS) (ctx : Ctx) (env : RpcEnv)
    (dest : Keypair) :
    (∀ acc, env.nonceAccountInfo = some acc →
      ∃ w, createTx fs ctx env dest true = (fs.write unsignedTxPath w,
        .ok ({ instructions :=
                 [SystemProgram.nonceAdvance ctx.nonceKeypair.publicKey
                    ctx.nonceAuthKeypair.publicKey,
                  SystemProgram.transfer ctx.senderKeypair.publicKey
                    dest.publicKey TRANSFER_AMOUNT],
               feePayer := some ctx.senderKeypair.publicKey,
               recentBlockhash := some acc.nonce,
               lastValidBlockHeight := none,
               signatures := [] }, w))) ∧
    (∃ w, createTx fs ctx env dest false = (fs.write unsignedTxPath w,
        .ok ({ instructions := [SystemProgram.transfer ctx.senderKeypair.publicKey
                 dest.publicKey TRANSFER_AMOUNT],
               feePayer := some ctx.senderKeypair.publicKey,
               recentBlockhash := some env.latestBlockhash,
               lastValidBlockHeight := none,
               signatures := [] }, w))) ∧
    (∀ (useNonce : Bool) (fs2 : FS) (tx : Transaction) (w : SerializedTx),
      createTx fs ctx env dest useNonce = (fs2, .ok (tx, w)) →
      tx.feePayer = some ctx.senderKeypair.publicKey) ∧
    (∀ (fs2 : FS) (tx : Transaction) (w : SerializedTx),
      createTx fs ctx env dest false = (fs2, .ok (tx, w)) →
      ∀ ix ∈ tx.instructions, ix.data ≠ InstrData.advanceNonceData) := by
  have hnonce : ∀ acc, env.nonceAccountInfo = some acc →
      ∃ w, createTx fs ctx env dest true = (fs.write unsignedTxPath w,
        .ok ({ instructions :=
                 [SystemProgram.nonceAdvance ctx.nonceKeypair.publicKey
                    ctx.nonceAuthKeypair.publicKey,
                  SystemProgram.transfer ctx.senderKeypair.publicKey
                    dest.publicKey TRANSFER_AMOUNT],
               feePayer := some ctx.senderKeypair.publicKey,
               recentBlockhash := some acc.nonce,
               lastValidBlockHeight := none,
               signatures := [] }, w)) := by
    intro acc hacc
    by_cases hak : ctx.nonceAuthKeypair.publicKey = ctx.senderKeypair.publicKey
    · exact ⟨{ signatures := [{ publicKey := ctx.senderKeypair.publicKey, signature := none }],
               message := { requiredSigners := [ctx.senderKeypair.publicKey],
                            instructions :=
                              [SystemProgram.nonceAdvance ctx.nonceKeypair.publicKey
                                 ctx.nonceAuthKeypair.publicKey,
                               SystemProgram.transfer ctx.senderKeypair.publicKey
                                 dest.publicKey TRANSFER_AMOUNT],
                            recentBlockhash := acc.nonce } },
        by simp [createTx, fetchNonceInfo, hacc, encodeAndWriteTransaction,
          Transaction.serialize, Transaction.compileMessage,
          Transaction.instructionSignerKeys, SystemProgram.nonceAdvance,
          SystemProgram.transfer, dedupKeysAux, resetSignatures,
          verifySignaturesList, verifySlot, hak]⟩
    · exact ⟨{ signatures := [{ publicKey := ctx.senderKeypair.publicKey, signature := none },
                              { publicKey := ctx.nonceAuthKeypair.publicKey, signature := none }],
               message := { requiredSigners := [ctx.senderKeypair.publicKey,
                                                ctx.nonceAuthKeypair.publicKey],
                            instructions :=
                              [SystemProgram.nonceAdvance ctx.nonceKeypair.publicKey
                                 ctx.nonceAuthKeypair.publicKey,
                               SystemProgram.transfer ctx.senderKeypair.publicKey
                                 dest.publicKey TRANSFER_AMOUNT],
                            recentBlockhash := acc.nonce } },
        by simp [createTx, fetchNonceInfo, hacc, encodeAndWriteTransaction,
          Transaction.serialize, Transaction.compileMessage,
          Transaction.instructionSignerKeys, SystemProgram.nonceAdvance,
          SystemProgram.transfer, dedupKeysAux, resetSignatures,
          verifySignaturesList, verifySlot, hak, Ne.symm hak]⟩
  refine ⟨hnonce, ⟨_, createTx_false_eq fs ctx env dest⟩, ?_, ?_⟩
  · intro useNonce fs2 tx w h
    cases useNonce with
    | false =>
      rw [createTx_false_eq fs ctx env dest] at h
      simp only [Prod.mk.injEq, Except.ok.injEq] at h
      obtain ⟨-, h2, -⟩ := h
      rw [← h2]
    | true =>
      cases hai : env.nonceAccountInfo with
      | none => simp [createTx, fetchNonceInfo, hai] at h
      | some acc =>
        obtain ⟨W, hW⟩ := hnonce acc hai
        rw [hW] at h
        simp only [Prod.mk.injEq, Except.ok.injEq] at h
        obtain ⟨-, h2, -⟩ := h
        rw [← h2]
  · intro fs2 tx w h
    rw [createTx_false_eq fs ctx env dest] at h
    simp only [Prod.mk.injEq, Except.ok.injEq] at h
    obtain ⟨-, h2, -⟩ := h
    rw [← h2]
    intro ix hix
    simp only [List.mem_singleton] at hix
    subst hix
    simp [SystemProgram.transfer]

/-- Witness for C3 at the concrete environment. -/
theorem createTx_mode_structure_witness :
    env0.nonceAccountInfo = some ⟨"AuthPk", "NonceVal1"⟩ ∧
    (∃ w, createTx fsEmpty ctx0 env0 kpDest true =
      (fsEmpty.write unsignedTxPath w,
        .ok ({ instructions :=
                 [SystemProgram.nonceAdvance ctx0.nonceKeypair.publicKey
                    ctx0.nonceAuthKeypair.publicKey,
                  SystemProgram.transfer ctx0.senderKeypair.publicKey
                    kpDest.publicKey TRANSFER_AMOUNT],
               feePayer := some ctx0.senderKeypair.publicKey,
               recentBlockhash := some "NonceVal1",
               lastValidBlockHeight := none,
               signatures := [] }, w))) :=
  ⟨rfl, (createTx_mode_structure fsEmpty ctx0 env0 kpDest).1
    ⟨"AuthPk", "NonceVal1"⟩ rfl⟩

/-- The result of `createTx` in nonce mode, fully explicit, when the nonce
account exists and the nonce authority's key differs from the sender's. -/
lemma createTx_true_eq (fs : FS) (ctx : Ctx) (env : RpcEnv) (dest : Keypair)
    (acc : NonceAccountData) (hacc : env.nonceAccountInfo = some acc)
    (hne : ctx.nonceAuthKeypair.publicKey ≠ ctx.senderKeypair.publicKey) :
    createTx fs ctx env dest true =
      (fs.write unsignedTxPath
        { signatures := [{ publicKey := ctx.senderKeypair.publicKey, signature := none },
                         { publicKey := ctx.nonceAuthKeypair.publicKey, signature := none }],
          message := { requiredSigners := [ctx.senderKeypair.publicKey,
                                           ctx.nonceAuthKeypair.publicKey],
                       instructions :=
                         [SystemProgram.nonceAdvance ctx.nonceKeypair.publicKey
                            ctx.nonceAuthKeypair.publicKey,
                          SystemProgram.transfer ctx.senderKeypair.publicKey
                            dest.publicKey TRANSFER_AMOUNT],
                       recentBlockhash := acc.nonce } },
       .ok ({ instructions :=
                [SystemProgram.nonceAdvance ctx.nonceKeypair.publicKey
                   ctx.nonceAuthKeypair.publicKey,
                 SystemProgram.transfer ctx.senderKeypair.publicKey
                   dest.publicKey TRANSFER_AMOUNT],
              feePayer := some ctx.senderKeypair.publicKey,
              recentBlockhash := some acc.nonce,
              lastValidBlockHeight := none,
              signatures := [] },
            { signatures := [{ publicKey := ctx.senderKeypair.publicKey, signature := none },
                             { publicKey := ctx.nonceAuthKeypair.publicKey, signature := none }],
              message := { requiredSigners := [ctx.senderKeypair.publicKey,
                                               ctx.nonceAuthKeypair.publicKey],
                           instructions :=
                             [SystemProgram.nonceAdvance ctx.nonceKeypair.publicKey
                                ctx.nonceAuthKeypair.publicKey,
                              SystemProgram.transfer ctx.senderKeypair.publicKey
                                dest.publicKey TRANSFER_AMOUNT],
                           recentBlockhash := acc.nonce } })) := by
  simp [createTx, fetchNonceInfo, hacc, encodeAndWriteTransaction,
    Transaction.serialize, Transaction.compileMessage,
    Transaction.instructionSignerKeys, SystemProgram.nonceAdvance,
    SystemProgram.transfer, dedupKeysAux, resetSignatures,
    verifySignaturesList, verifySlot, hne, Ne.symm hne]

/-- C4: in nonce mode exactly the nonce-authority and sender keys are
applied as signatures to the reloaded unsigned transaction; in blockhash
mode only the sender key is applied; and the signed artifact is written
with `requireAllSignatures = true`, so a write with a missing required
signature fails closed (demonstrated by signing the two-signer artifact
with only the sender: nothing is written and the stage errors). -/
theorem signOffline_signature_sets (fs : FS) (ctx : Ctx) (env : RpcEnv)
    (dest : Keypair) (wt : Option Int) (acc : NonceAccountData)
    (hacc : env.nonceAccountInfo = some acc)
    (hne : ctx.nonceAuthKeypair.publicKey ≠ ctx.senderKeypair.publicKey) :
    (∀ fs1 tx w, createTx fs ctx env dest true = (fs1, .ok (tx, w)) →
      ∃ w2, signOffline fs1 ctx wt true = (fs1.write signedTxPath w2, .ok w2) ∧
        w2.message = w.message ∧
        w2.signatures =
          [{ publicKey := ctx.senderKeypair.publicKey,
             signature := some ⟨ctx.senderKeypair.publicKey, w.message⟩ },
           { publicKey := ctx.nonceAuthKeypair.publicKey,
             signature := some ⟨ctx.nonceAuthKeypair.publicKey, w.message⟩ }]) ∧
    (∀ fs1 tx w, createTx fs ctx env dest false = (fs1, .ok (tx, w)) →
      ∃ w2, signOffline fs1 ctx wt false = (fs1.write signedTxPath w2, .ok w2) ∧
        w2.message = w.message ∧
        w2.signatures =
          [{ publicKey := ctx.senderKeypair.publicKey,
             signature := some ⟨ctx.senderKeypair.publicKey, w.message⟩ }]) ∧
    (∀ fs1 tx w, createTx fs ctx env dest true = (fs1, .ok (tx, w)) →
      signOffline fs1 ctx wt false = (fs1, .error "Signature verification failed")) := by
  refine ⟨?_, ?_, ?_⟩
  · intro fs1 tx w h
    rw [createTx_true_eq fs ctx env dest acc hacc hne] at h
    simp only [Prod.mk.injEq, Except.ok.injEq] at h
    obtain ⟨hfs1, -, hw⟩ := h
    subst hfs1
    subst hw
    exact ⟨{ signatures :=
               [{ publicKey := ctx.senderKeypair.publicKey,
                  signature := some ⟨ctx.senderKeypair.publicKey,
                    { requiredSigners := [ctx.senderKeypair.publicKey,
                                          ctx.nonceAuthKeypair.publicKey],
                      instructions :=
                        [SystemProgram.nonceAdvance ctx.nonceKeypair.publicKey
                           ctx.nonceAuthKeypair.publicKey,
                         SystemProgram.transfer ctx.senderKeypair.publicKey
                           dest.publicKey TRANSFER_AMOUNT],
                      recentBlockhash := acc.nonce }⟩ },
                { publicKey := ctx.nonceAuthKeypair.publicKey,
                  signature := some ⟨ctx.nonceAuthKeypair.publicKey,
                    { requiredSigners := [ctx.senderKeypair.publicKey,
                                          ctx.nonceAuthKeypair.publicKey],
                      instructions :=
                        [SystemProgram.nonceAdvance ctx.nonceKeypair.publicKey
                           ctx.nonceAuthKeypair.publicKey,
                         SystemProgram.transfer ctx.senderKeypair.publicKey
                           dest.publicKey TRANSFER_AMOUNT],
                      recentBlockhash := acc.nonce }⟩ }],
             message := { requiredSigners := [ctx.senderKeypair.publicKey,
                                              ctx.nonceAuthKeypair.publicKey],
                          instructions :=
                            [SystemProgram.nonceAdvance ctx.nonceKeypair.publicKey
                               ctx.nonceAuthKeypair.publicKey,
                             SystemProgram.transfer ctx.senderKeypair.publicKey
                               dest.publicKey TRANSFER_AMOUNT],
                          recentBlockhash := acc.nonce } },
      by simp [signOffline, readAndDecodeTransaction, FS.write,
        Transaction.fromWire, Transaction.sign, dedupSignersAux,
        Transaction.compileMessage, Transaction.instructionSignerKeys,
        SystemProgram.nonceAdvance, SystemProgram.transfer, dedupKeysAux,
        resetSignatures, applySigners, setSignature,
        encodeAndWriteTransaction, Transaction.serialize,
        verifySignaturesList, verifySlot, hne, Ne.symm hne]⟩
  · intro fs1 tx w h
    rw [createTx_false_eq fs ctx env dest] at h
    simp only [Prod.mk.injEq, Except.ok.injEq] at h
    obtain ⟨hfs1, -, hw⟩ := h
    subst hfs1
    subst hw
    exact ⟨{ signatures :=
               [{ publicKey := ctx.senderKeypair.publicKey,
                  signature := some ⟨ctx.senderKeypair.publicKey,
                    { requiredSigners := [ctx.senderKeypair.publicKey],
                      instructions :=
                        [SystemProgram.transfer ctx.senderKeypair.publicKey
                           dest.publicKey TRANSFER_AMOUNT],
                      recentBlockhash := env.latestBlockhash }⟩ }],
             message := { requiredSigners := [ctx.senderKeypair.publicKey],
                          instructions :=
                            [SystemProgram.transfer ctx.senderKeypair.publicKey
                               dest.publicKey TRANSFER_AMOUNT],
                          recentBlockhash := env.latestBlockhash } },
      by simp [signOffline, readAndDecodeTransaction, FS.write,
        Transaction.fromWire, Transaction.sign, dedupSignersAux,
        Transaction.compileMessage, Transaction.instructionSignerKeys,
        SystemProgram.transfer, dedupKeysAux,
        resetSignatures, applySigners, setSignature,
        encodeAndWriteTransaction, Transaction.serialize,
        verifySignaturesList, verifySlot]⟩
  · intro fs1 tx w h
    rw [createTx_true_eq fs ctx env dest acc hacc hne] at h
    simp only [Prod.mk.injEq, Except.ok.injEq] at h
    obtain ⟨hfs1, -, hw⟩ := h
    subst hfs1
    subst hw
    simp [signOffline, readAndDecodeTransaction, FS.write,
      Transaction.fromWire, Transaction.sign, dedupSignersAux,
      Transaction.compileMessage, Transaction.instructionSignerKeys,
      SystemProgram.nonceAdvance, SystemProgram.transfer, dedupKeysAux,
      resetSignatures, applySigners, setSignature,
      encodeAndWriteTransaction, Transaction.serialize,
      verifySignaturesList, verifySlot, hne, Ne.symm hne]

/-- The concrete nonce-mode unsigned artifact produced by `createTx` on the
witness fixtures. -/
def wireUnsignedNonce0 : SerializedTx :=
  { signatures := [{ publicKey := "SenderPk", signature := none },
                   { publicKey := "AuthPk", signature := none }],
    message := { requiredSigners := ["SenderPk", "AuthPk"],
                 instructions := [SystemProgram.nonceAdvance "NoncePk" "AuthPk",
                                  SystemProgram.transfer "SenderPk" "DestPk"
                                    TRANSFER_AMOUNT],
                 recentBlockhash := "NonceVal1" } }

/-- The concrete nonce-mode in-memory transaction built on the witness
fixtures. -/
def txNonce0 : Transaction :=
  { instructions := [SystemProgram.nonceAdvance "NoncePk" "AuthPk",
                     SystemProgram.transfer "SenderPk" "DestPk" TRANSFER_AMOUNT],
    feePayer := some "SenderPk",
    recentBlockhash := some "NonceVal1",
    lastValidBlockHeight := none,
    signatures := [] }

/-- Witness for C4 at the concrete fixtures, nonce mode. -/
theorem signOffline_signature_sets_witness :
    (ctx0.nonceAuthKeypair.publicKey ≠ ctx0.senderKeypair.publicKey ∧
     env0.nonceAccountInfo = some ⟨"AuthPk", "NonceVal1"⟩ ∧
     createTx fsEmpty ctx0 env0 kpDest true =
       (fsEmpty.write unsignedTxPath wireUnsignedNonce0,
        .ok (txNonce0, wireUnsignedNonce0))) ∧
    (∃ w2, signOffline (fsEmpty.write unsignedTxPath wireUnsignedNonce0) ctx0
        (some 0) true =
        ((fsEmpty.write unsignedTxPath wireUnsignedNonce0).write signedTxPath w2,
         .ok w2) ∧
      w2.message = wireUnsignedNonce0.message ∧
      w2.signatures =
        [{ publicKey := ctx0.senderKeypair.publicKey,
           signature := some ⟨ctx0.senderKeypair.publicKey,
             wireUnsignedNonce0.message⟩ },
         { publicKey := ctx0.nonceAuthKeypair.publicKey,
           signature := some ⟨ctx0.nonceAuthKeypair.publicKey,
             wireUnsignedNonce0.message⟩ }]) :=
  ⟨⟨by decide, rfl, rfl⟩,
   (signOffline_signature_sets fsEmpty ctx0 env0 kpDest (some 0)
      ⟨"AuthPk", "NonceVal1"⟩ rfl (by decide)).1
     (fsEmpty.write unsignedTxPath wireUnsignedNonce0) txNonce0
     wireUnsignedNonce0 rfl⟩

/-- The outcome of the offline-signing stage as a function of the unsigned
artifact alone (the waiting time and the rest of the file system play no
role): reload, sign with the mode's key set, serialize requiring all
signatures. -/
def signOutcome (ctx : Ctx) (useNonce : Bool) :
    Option SerializedTx → Except String SerializedTx
  | none => .error ("ENOENT: no such file " ++ unsignedTxPath)
  | some wu =>
    match (if useNonce then
            (Transaction.fromWire wu).sign [ctx.nonceAuthKeypair, ctx.senderKeypair]
          else
            (Transaction.fromWire wu).sign [ctx.senderKeypair]) with
    | .error e => .error e
    | .ok tx => tx.serialize true

lemma signOffline_snd (fs : FS) (ctx : Ctx) (wt : Option Int) (un : Bool) :
    (signOffline fs ctx wt un).2 = signOutcome ctx un (fs unsignedTxPath) := by
  rw [signOffline, readAndDecodeTransaction, signOutcome.eq_def]
  cases fs unsignedTxPath with
  | none => rfl
  | some wu =>
    dsimp only
    cases (if un = true then
            (Transaction.fromWire wu).sign [ctx.nonceAuthKeypair, ctx.senderKeypair]
          else
            (Transaction.fromWire wu).sign [ctx.senderKeypair]) with
    | error e => rfl
    | ok tx =>
      dsimp only
      rw [encodeAndWriteTransaction.eq_def]
      cases tx.serialize true with
      | error e => rfl
      | ok w => rfl

lemma signOffline_fst (fs : FS) (ctx : Ctx) (wt : Option Int) (un : Bool) :
    (signOffline fs ctx wt un).1 =
      match signOutcome ctx un (fs unsignedTxPath) with
      | .ok w => fs.write signedTxPath w
      | .error _ => fs := by
  rw [signOffline, readAndDecodeTransaction, signOutcome.eq_def]
  cases fs unsignedTxPath with
  | none => rfl
  | some wu =>
    dsimp only
    cases (if un = true then
            (Transaction.fromWire wu).sign [ctx.nonceAuthKeypair, ctx.senderKeypair]
          else
            (Transaction.fromWire wu).sign [ctx.senderKeypair]) with
    | error e => rfl
    | ok tx =>
      dsimp only
      rw [encodeAndWriteTransaction.eq_def]
      cases tx.serialize true with
      | error e => rfl
      | ok w => rfl

/-- C6: the signing stage is deterministic in the unsigned artifact and the
keys.  Two runs over file systems holding the same unsigned artifact, with
any two waiting times, produce the same serialized result, and when they
succeed both leave the identical signed artifact at the signed-artifact
path (byte-identical signed artifacts). -/
theorem signOffline_deterministic (ctx : Ctx) (fs1 fs2 : FS)
    (wt1 wt2 : Option Int) (un : Bool)
    (h : fs1 unsignedTxPath = fs2 unsignedTxPath) :
    (signOffline fs1 ctx wt1 un).2 = (signOffline fs2 ctx wt2 un).2 ∧
    (∀ w, (signOffline fs1 ctx wt1 un).2 = .ok w →
      (signOffline fs1 ctx wt1 un).1 signedTxPath = some w ∧
      (signOffline fs2 ctx wt2 un).1 signedTxPath = some w) := by
  have e1 := signOffline_snd fs1 ctx wt1 un
  have e2 := signOffline_snd fs2 ctx wt2 un
  have f1 := signOffline_fst fs1 ctx wt1 un
  have f2 := signOffline_fst fs2 ctx wt2 un
  rw [h] at e1 f1
  refine ⟨by rw [e1, e2], ?_⟩
  intro w hw
  rw [e1] at hw
  rw [f1, f2, hw]
  simp [FS.write]

/-- Witness for C6: the same unsigned artifact in two different file
systems, signed after different delays, yields the same result. -/
theorem signOffline_deterministic_witness :
    (fsEmpty.write unsignedTxPath wireUnsignedNonce0) unsignedTxPath =
      (fsSigned.write unsignedTxPath wireUnsignedNonce0) unsignedTxPath ∧
    ((signOffline (fsEmpty.write unsignedTxPath wireUnsignedNonce0) ctx0
        (some 0) true).2 =
      (signOffline (fsSigned.write unsignedTxPath wireUnsignedNonce0) ctx0
        (some 999999) true).2 ∧
    (∀ w, (signOffline (fsEmpty.write unsignedTxPath wireUnsignedNonce0) ctx0
        (some 0) true).2 = .ok w →
      (signOffline (fsEmpty.write unsignedTxPath wireUnsignedNonce0) ctx0
        (some 0) true).1 signedTxPath = some w ∧
      (signOffline (fsSigned.write unsignedTxPath wireUnsignedNonce0) ctx0
        (some 999999) true).1 signedTxPath = some w)) :=
  ⟨rfl, signOffline_deterministic ctx0
    (fsEmpty.write unsignedTxPath wireUnsignedNonce0)
    (fsSigned.write unsignedTxPath wireUnsignedNonce0)
    (some 0) (some 999999) true rfl⟩

/-- The compiled message of the nonce-provisioning transaction (for
specification: rent oracle applied to the nonce record size, system-program
ownership, authority as fee payer and first required signer). -/
def nonceProvisionMsg (ctx : Ctx) (env : RpcEnv) : Message :=
  { requiredSigners := [ctx.nonceAuthKeypair.publicKey,
                        ctx.nonceKeypair.publicKey],
    instructions :=
      [SystemProgram.createAccount ctx.nonceAuthKeypair.publicKey
         ctx.nonceKeypair.publicKey
         (env.minimumBalanceForRentExemption NONCE_ACCOUNT_LENGTH)
         NONCE_ACCOUNT_LENGTH systemProgramId,
       SystemProgram.nonceInit ctx.nonceKeypair.publicKey
         ctx.nonceAuthKeypair.publicKey],
    recentBlockhash := env.latestBlockhash }

/-- The signature slots of the provisioning transaction once both the
nonce-authority and nonce-account keys have signed. -/
def nonceProvisionSlots (ctx : Ctx) (env : RpcEnv) : List SignaturePair :=
  [{ publicKey := ctx.nonceAuthKeypair.publicKey,
     signature := some ⟨ctx.nonceAuthKeypair.publicKey, nonceProvisionMsg ctx env⟩ },
   { publicKey := ctx.nonceKeypair.publicKey,
     signature := some ⟨ctx.nonceKeypair.publicKey, nonceProvisionMsg ctx env⟩ }]

/-- The wire form of the signed provisioning transaction. -/
def nonceProvisionWire (ctx : Ctx) (env : RpcEnv) : SerializedTx :=
  { signatures := nonceProvisionSlots ctx env,
    message := nonceProvisionMsg ctx env }

/-- The signed provisioning transaction itself. -/
def nonceProvisionTx (ctx : Ctx) (env : RpcEnv) : Transaction :=
  { instructions := (nonceProvisionMsg ctx env).instructions,
    feePayer := some ctx.nonceAuthKeypair.publicKey,
    recentBlockhash := some env.latestBlockhash,
    lastValidBlockHeight := some env.lastValidBlockHeight,
    signatures := nonceProvisionSlots ctx env }

/-- C7: every successful run of the nonce provisioner built a single
transaction whose instructions are exactly the create-account instruction
for the nonce account (size `NONCE_ACCOUNT_LENGTH`, lamports the minimum
rent-exempt balance for that size, owned by the system program) followed by
the nonce-initialize instruction authorizing the nonce authority, whose fee
payer is the nonce authority and validity reference the current recent
blockhash; it carries valid signatures of both the nonce-account key and
the nonce-authority key, the exact serialized transaction was submitted,
and confirmation was awaited on the returned signature id with the same
blockhash and last valid block height. -/
theorem createNonce_provisioning_contract (ctx : Ctx) (env : RpcEnv)
    (hne : ctx.nonceKeypair.publicKey ≠ ctx.nonceAuthKeypair.publicKey) :
    ∀ r, createNonce ctx env = .ok r →
      r.tx.instructions =
        [SystemProgram.createAccount ctx.nonceAuthKeypair.publicKey
           ctx.nonceKeypair.publicKey
           (env.minimumBalanceForRentExemption NONCE_ACCOUNT_LENGTH)
           NONCE_ACCOUNT_LENGTH systemProgramId,
         SystemProgram.nonceInit ctx.nonceKeypair.publicKey
           ctx.nonceAuthKeypair.publicKey] ∧
      r.tx.feePayer = some ctx.nonceAuthKeypair.publicKey ∧
      r.tx.recentBlockhash = some env.latestBlockhash ∧
      r.tx.lastValidBlockHeight = some env.lastValidBlockHeight ∧
      r.tx.signatures =
        [{ publicKey := ctx.nonceAuthKeypair.publicKey,
           signature := some ⟨ctx.nonceAuthKeypair.publicKey, r.wire.message⟩ },
         { publicKey := ctx.nonceKeypair.publicKey,
           signature := some ⟨ctx.nonceKeypair.publicKey, r.wire.message⟩ }] ∧
      r.wire.signatures = r.tx.signatures ∧
      r.wire.message.instructions = r.tx.instructions ∧
      r.wire.message.requiredSigners =
        [ctx.nonceAuthKeypair.publicKey, ctx.nonceKeypair.publicKey] ∧
      r.wire.message.recentBlockhash = env.latestBlockhash ∧
      env.sendRawTransaction r.wire = .ok r.sentSignature ∧
      r.confirmedSignature = r.sentSignature ∧
      r.confirmedBlockhash = env.latestBlockhash ∧
      r.confirmedLastValidBlockHeight = env.lastValidBlockHeight := by
  have hstep : createNonce ctx env =
      (match env.sendRawTransaction (nonceProvisionWire ctx env) with
       | .error e => .error e
       | .ok s =>
         match env.confirmTransaction s env.latestBlockhash
             env.lastValidBlockHeight with
         | .error e => .error e
         | .ok _ =>
           .ok { tx := nonceProvisionTx ctx env,
                 wire := nonceProvisionWire ctx env,
                 sentSignature := s, confirmedSignature := s,
                 confirmedBlockhash := env.latestBlockhash,
                 confirmedLastValidBlockHeight := env.lastValidBlockHeight }) := by
    simp [createNonce, Transaction.sign, dedupSignersAux,
      Transaction.compileMessage, Transaction.instructionSignerKeys,
      SystemProgram.createAccount, SystemProgram.nonceInit, dedupKeysAux,
      resetSignatures, applySigners, setSignature, Transaction.serialize,
      verifySignaturesList, verifySlot, hne, Ne.symm hne,
      nonceProvisionWire, nonceProvisionMsg, nonceProvisionSlots,
      nonceProvisionTx]
  intro r hr
  rw [hstep] at hr
  cases hsend : env.sendRawTransaction (nonceProvisionWire ctx env) with
  | error e => rw [hsend] at hr; cases hr
  | ok s =>
    rw [hsend] at hr
    dsimp only at hr
    cases hconf : env.confirmTransaction s env.latestBlockhash
        env.lastValidBlockHeight with
    | error e => rw [hconf] at hr; cases hr
    | ok u =>
      rw [hconf] at hr
      obtain rfl := Except.ok.inj hr.symm
      exact ⟨rfl, rfl, rfl, rfl, rfl, rfl, rfl, rfl, rfl, hsend, rfl, rfl, rfl⟩

/-- The concrete provisioning result on the witness fixtures. -/
def nonceRes0 : NonceCreation :=
  { tx := nonceProvisionTx ctx0 env0,
    wire := nonceProvisionWire ctx0 env0,
    sentSignature := "Sig1",
    confirmedSignature := "Sig1",
    confirmedBlockhash := "Bh1",
    confirmedLastValidBlockHeight := 100 }

/-- Witness for C7 at the concrete fixtures. -/
theorem createNonce_provisioning_contract_witness :
    (ctx0.nonceKeypair.publicKey ≠ ctx0.nonceAuthKeypair.publicKey ∧
     createNonce ctx0 env0 = .ok nonceRes0) ∧
    (nonceRes0.tx.instructions =
       [SystemProgram.createAccount ctx0.nonceAuthKeypair.publicKey
          ctx0.nonceKeypair.publicKey
          (env0.minimumBalanceForRentExemption NONCE_ACCOUNT_LENGTH)
          NONCE_ACCOUNT_LENGTH systemProgramId,
        SystemProgram.nonceInit ctx0.nonceKeypair.publicKey
          ctx0.nonceAuthKeypair.publicKey] ∧
     nonceRes0.tx.feePayer = some ctx0.nonceAuthKeypair.publicKey ∧
     nonceRes0.tx.recentBlockhash = some env0.latestBlockhash ∧
     nonceRes0.tx.lastValidBlockHeight = some env0.lastValidBlockHeight ∧
     nonceRes0.tx.signatures =
       [{ publicKey := ctx0.nonceAuthKeypair.publicKey,
          signature := some ⟨ctx0.nonceAuthKeypair.publicKey,
            nonceRes0.wire.message⟩ },
        { publicKey := ctx0.nonceKeypair.publicKey,
          signature := some ⟨ctx0.nonceKeypair.publicKey,
            nonceRes0.wire.message⟩ }] ∧
     nonceRes0.wire.signatures = nonceRes0.tx.signatures ∧
     nonceRes0.wire.message.instructions = nonceRes0.tx.instructions ∧
     nonceRes0.wire.message.requiredSigners =
       [ctx0.nonceAuthKeypair.publicKey, ctx0.nonceKeypair.publicKey] ∧
     nonceRes0.wire.message.recentBlockhash = env0.latestBlockhash ∧
     env0.sendRawTransaction nonceRes0.wire = .ok nonceRes0.sentSignature ∧
     nonceRes0.confirmedSignature = nonceRes0.sentSignature ∧
     nonceRes0.confirmedBlockhash = env0.latestBlockhash ∧
     nonceRes0.confirmedLastValidBlockHeight = env0.lastValidBlockHeight) :=
  ⟨⟨by decide, rfl⟩,
   createNonce_provisioning_contract ctx0 env0 (by decide) nonceRes0 rfl⟩
